import Mathlib

/-!
Shallow embedding of `src/nnfabrik/builder.py` (functions `get_model`,
`get_data`, `get_trainer`, `get_all_parts`).

Python callables supplied by external collaborator modules are modelled as
opaque primitives identified by a natural number; their behaviour is given by
an environment `Env`.  Invoking a primitive is recorded in a `Trace`, so that
theorems can speak about *which* calls a builder operation performs and with
which positional and keyword arguments.  Python `dict`s used as configuration
mappings / keyword arguments are association lists `List (String × Val)`.
Exceptions are modelled with `Except Err`.
-/

namespace NNFabrik

/-- Python exceptions that the embedded code can raise. -/
inductive Err where
  /-- `TypeError`, e.g. `**None` expansion or duplicated keyword argument. -/
  | typeError : Err
  /-- `KeyError` raised by a failing `d[key]` subscript. -/
  | keyError : String → Err
  /-- `AttributeError`/`NameError` raised by `eval` of a missing namespace member. -/
  | attributeError : String → Err
  /-- `SyntaxError` raised by `eval` on a malformed expression. -/
  | syntaxError : Err
  /-- `RuntimeError` raised by `load_state_dict` on a strict key mismatch. -/
  | loadError : Err
  /-- An arbitrary exception raised by an external collaborator callable. -/
  | raised : Nat → Err
  deriving DecidableEq, Repr

mutual
/-- Python runtime values that flow through the builder functions. -/
inductive Val where
  /-- An integer value. -/
  | int : Int → Val
  /-- A string value. -/
  | str : String → Val
  /-- The Python `None` value. -/
  | pyNone : Val
  /-- A dictionary of string keys to values. -/
  | dict : List (String × Val) → Val
  /-- A tuple of values. -/
  | tup : List Val → Val
  /-- A callable value. -/
  | fn : Fn → Val
  /-- A torch `nn.Module` object with named parameters (its `state_dict`). -/
  | module : List (String × Val) → Val
  /-- An otherwise unstructured object, identified by a tag. -/
  | obj : Nat → Val

/-- Callable values: either an opaque primitive function of the environment, or
a `functools.partial` wrapper binding keyword arguments around another
callable (the only form of `partial` the source builds). -/
inductive Fn where
  /-- An external collaborator function, identified by its index. -/
  | prim : Nat → Fn
  /-- A keyword-binding partial application, as built by the trainer branch. -/
  | partApp : Fn → List (String × Val) → Fn
end

/-- A configuration mapping (a Python `dict` used for keyword arguments). -/
abbrev Config := List (String × Val)

/-- One recorded primitive invocation: (primitive id, positional args, kwargs). -/
abbrev CallEvent := Nat × List Val × Config

/-- The sequence of primitive invocations an operation performed. -/
abbrev Trace := List CallEvent

/-- The environment: behaviour of the opaque primitives, the three fixed
namespaces (`datasets`, `models`, `training` modules consulted by `eval`),
and the dynamic loader `dynamic_import` from `utility.nnf_helper`. -/
structure Env where
  /-- Semantics of primitive `i` applied to positional args and kwargs. -/
  prims : Nat → List Val → Config → Except Err Val
  /-- Members of the fixed `datasets` namespace. -/
  datasets : String → Option Fn
  /-- Members of the fixed `models` namespace. -/
  models : String → Option Fn
  /-- Members of the fixed `training` namespace. -/
  training : String → Option Fn
  /-- Modelled from the spec: `dynamic_import` of `utility/nnf_helper.py` is
  not under `src/`; the spec says resolution with a non-empty module path
  performs dynamic symbol loading from that path, which may fail. -/
  dynamic_import : String → String → Except Err Fn

/-- Python `{**d1, **d2}` dictionary update: keys of `d1` keep their position
with values overridden by `d2`; keys only in `d2` are appended.  This is how
`functools.partial` merges pre-bound keywords with call-time keywords. -/
def dictUpdate (d1 d2 : Config) : Config :=
  (d1.map fun kv => (kv.1, ((d2.lookup kv.1).getD kv.2))) ++
    d2.filter fun kv => (d1.lookup kv.1).isNone

/-- Invoke a callable on positional arguments and keyword arguments, recording
the underlying primitive call.  A `partial` wrapper forwards to the wrapped
callable with its bound keywords merged under the call-time keywords. -/
def callFn (env : Env) : Fn → List Val → Config → Except Err Val × Trace
  | .prim i, pos, kw => (env.prims i pos kw, [(i, pos, kw)])
  | .partApp f bound, pos, kw => callFn env f pos (dictUpdate bound kw)

/-- Characters allowed inside a Python identifier. -/
def isIdentChar (c : Char) : Bool :=
  c.isAlpha || c.isDigit || c = '_'

/-- Python reserved keywords (not usable as attribute names after a dot). -/
def pyKeywords : List String :=
  ["False", "None", "True", "and", "as", "assert", "async", "await", "break",
   "class", "continue", "def", "del", "elif", "else", "except", "finally",
   "for", "from", "global", "if", "import", "in", "is", "lambda", "nonlocal",
   "not", "or", "pass", "raise", "return", "try", "while", "with", "yield"]

/-- Whether a character list spells a well-formed bare Python identifier. -/
def isPyIdentChars : List Char → Bool
  | [] => false
  | c :: cs => (c.isAlpha || c = '_') && cs.all isIdentChar

/-- Whether a string is a well-formed bare Python identifier. -/
def isPyIdent (s : String) : Bool :=
  isPyIdentChars s.toList && !pyKeywords.contains s

/-- Split a character list at its last `'.'`: returns the characters before
and after it, or `none` when no dot occurs. -/
def splitLastDot : List Char → Option (List Char × List Char)
  | [] => none
  | c :: cs =>
    match splitLastDot cs with
    | some (l, r) => some (c :: l, r)
    | none => if c = '.' then some ([], cs) else none

/-- Modelled from the spec: `split_module_name` of `utility/nnf_helper.py` is
not under `src/`.  The spec says a dotted-path string is split into a
module-path portion and a symbol-name suffix, the module-path being empty when
the string is a bare name: the symbol name is the part after the last dot and
the module path everything before it. -/
def split_module_name (s : String) : String × String :=
  match splitLastDot s.toList with
  | some (l, r) => (String.mk l, String.mk r)
  | none => ("", s)

/-- The module-path portion of a dotted-path identifier. -/
def modulePath (s : String) : String := (split_module_name s).1

/-- The symbol-name portion of a dotted-path identifier. -/
def className (s : String) : String := (split_module_name s).2

/-- Python `eval (mod ++ "." ++ s)` against a fixed namespace `ns`: the
expression parses as an attribute access only when `s` is a bare identifier,
in which case the member is looked up (raising `AttributeError` when absent);
otherwise `eval` raises a `SyntaxError`. -/
def evalNsAttr (ns : String → Option Fn) (s : String) : Except Err Fn :=
  if isPyIdent s then
    match ns s with
    | some f => .ok f
    | none => .error (.attributeError s)
  else .error .syntaxError

/-- Resolution of a string identifier, shared verbatim by the three builder
functions: `module_path, class_name = split_module_name(s)` followed by
`dynamic_import(module_path, class_name) if module_path else eval(ns + s)`. -/
def resolveFn (ns : String → Option Fn) (dyn : String → String → Except Err Fn)
    (s : String) : Except Err Fn :=
  let mp := modulePath s
  let cn := className s
  if mp ≠ "" then dyn mp cn else evalNsAttr ns s

/-- An identifier argument: either a string to resolve or a callable used
as-is (`Alternatively, you can pass in a callable object and no name
resolution will be performed`). -/
inductive Ident where
  /-- A string identifier. -/
  | str : String → Ident
  /-- An already-callable identifier. -/
  | fn : Fn → Ident

/-- Resolution of an identifier: strings go through `resolveFn`, callables are
returned unchanged (the `isinstance(fn, str)` guard). -/
def resolveIdent (ns : String → Option Fn)
    (dyn : String → String → Except Err Fn) : Ident → Except Err Fn
  | .str s => resolveFn ns dyn s
  | .fn f => .ok f

/-- Python subscript `v[k]` for string keys: dictionary lookup, `KeyError`
when the key is absent, `TypeError` when `v` is not a dictionary. -/
def subscript (v : Val) (k : String) : Except Err Val :=
  match v with
  | .dict d =>
    match d.lookup k with
    | some x => .ok x
    | none => .error (.keyError k)
  | _ => .error .typeError

/-- Whether two parameter dictionaries have exactly the same key set. -/
def sameKeys (ps sd : Config) : Bool :=
  (ps.all fun kv => (sd.lookup kv.1).isSome) &&
  (sd.all fun kv => (ps.lookup kv.1).isSome)

/-- Torch `nn.Module.load_state_dict` on the parameter dictionary of a module:
under `strict=True` any missing or unexpected parameter name is an error;
otherwise the matching entries are overwritten and mismatched names are
tolerated. -/
def load_state_dict (ps sd : Config) (strict : Bool) : Except Err Config :=
  if strict && !sameKeys ps sd then .error .loadError
  else .ok (ps.map fun kv => (kv.1, (sd.lookup kv.1).getD kv.2))

/-- Embedding of `builder.get_data`: resolve `dataset_fn` and invoke it with
`dataset_config` expanded as keyword arguments. -/
def get_data (env : Env) (dataset_fn : Ident) (dataset_config : Config) :
    Except Err Val × Trace :=
  match resolveIdent env.datasets env.dynamic_import dataset_fn with
  | .error e => (.error e, [])
  | .ok f => callFn env f [] dataset_config

/-- Embedding of `builder.get_model`: resolve `model_fn`, invoke it as
`model_fn(dataloader, seed=seed, **model_config)` (a `TypeError` when
`model_config` itself binds `seed`), then, when a `state_dict` is supplied,
load it into the returned module with the given strictness. -/
def get_model (env : Env) (model_fn : Ident) (model_config : Config)
    (dataloader : Val) (seed : Val) (state_dict : Option Config)
    (strict : Bool) : Except Err Val × Trace :=
  match resolveIdent env.models env.dynamic_import model_fn with
  | .error e => (.error e, [])
  | .ok f =>
    if (model_config.lookup "seed").isSome then (.error .typeError, [])
    else
      match callFn env f [dataloader] (("seed", seed) :: model_config) with
      | (.error e, t) => (.error e, t)
      | (.ok net, t) =>
        match state_dict with
        | none => (.ok net, t)
        | some sd =>
          match net with
          | .module ps =>
            match load_state_dict ps sd strict with
            | .error e => (.error e, t)
            | .ok ps2 => (.ok (.module ps2), t)
          | _ => (.error .typeError, t)

/-- Embedding of `builder.get_trainer`: a string identifier is resolved
against the `training` namespace (or dynamically imported) and *invoked* with
`trainer_config` expanded as keyword arguments — expanding `**None` is a
`TypeError`; a callable identifier with a configuration yields
`partial(trainer_fn, **trainer_config)`; a callable identifier without a
configuration falls through both branches and returns `None`. -/
def get_trainer (env : Env) (trainer_fn : Ident)
    (trainer_config : Option Config) : Except Err Val × Trace :=
  match trainer_fn with
  | .str s =>
    match resolveFn env.training env.dynamic_import s with
    | .error e => (.error e, [])
    | .ok f =>
      match trainer_config with
      | none => (.error .typeError, [])
      | some cfg => callFn env f [] cfg
  | .fn f =>
    match trainer_config with
    | some cfg => (.ok (.fn (.partApp f cfg)), [])
    | none => (.ok .pyNone, [])

/-- Embedding of `builder.get_all_parts`: run `get_data`, feed
`dataloaders[dl_key]` into `get_model`, and when a `trainer_fn` is supplied
also run `get_trainer` and return a triple instead of a pair.  Any exception
aborts the aggregate and propagates unchanged. -/
def get_all_parts (env : Env) (dataset_fn : Ident) (dataset_config : Config)
    (model_fn : Ident) (model_config : Config) (seed : Val) (dl_key : String)
    (state_dict : Option Config) (strict : Bool) (trainer_fn : Option Ident)
    (trainer_config : Option Config) : Except Err Val × Trace :=
  match get_data env dataset_fn dataset_config with
  | (.error e, t1) => (.error e, t1)
  | (.ok dataloaders, t1) =>
    match subscript dataloaders dl_key with
    | .error e => (.error e, t1)
    | .ok dl =>
      match get_model env model_fn model_config dl seed state_dict strict with
      | (.error e, t2) => (.error e, t1 ++ t2)
      | (.ok model, t2) =>
        match trainer_fn with
        | none => (.ok (.tup [dataloaders, model]), t1 ++ t2)
        | some tfn =>
          match get_trainer env tfn trainer_config with
          | (.error e, t3) => (.error e, t1 ++ t2 ++ t3)
          | (.ok trainer, t3) =>
            (.ok (.tup [dataloaders, model, trainer]), t1 ++ t2 ++ t3)

/-- A concrete environment used to evaluate the embedded builder functions on
concrete inputs.  Primitive 3 builds a one-parameter module, primitive 10 a
dataloader dictionary, primitive 11 a model object; every other primitive
echoes its arguments back as a tuple. -/
def sampleEnv : Env where
  prims i pos kw :=
    if i = 3 then .ok (.module [("w", .int 0)])
    else if i = 10 then .ok (.dict [("train", .obj 7), ("validation", .obj 8)])
    else if i = 11 then .ok (.obj 9)
    else .ok (.tup [.int i, .tup pos, .dict kw])
  datasets n := if n = "ds" then some (.prim 0) else none
  models n := if n = "mk" then some (.prim 1) else none
  training n := if n = "tr" then some (.prim 2) else none
  dynamic_import mp cn :=
    if mp = "foo.bar" && cn = "make_loaders" then .ok (.prim 10)
    else if mp = "baz" && cn = "make_model" then .ok (.prim 11)
    else .error (.raised 99)

/-- Merging the empty keyword dictionary into a bound one changes nothing. -/
theorem dictUpdate_nil (d : Config) : dictUpdate d [] = d := by
  simp [dictUpdate]

/-- A character list with no dot has no last dot. -/
theorem splitLastDot_eq_none {cs : List Char} (h : '.' ∉ cs) :
    splitLastDot cs = none := by
  induction cs with
  | nil => rfl
  | cons c cs ih =>
    simp only [List.mem_cons, not_or] at h
    have hc : ¬c = '.' := fun hc => h.1 hc.symm
    simp [splitLastDot, ih h.2, hc]

/-- A well-formed bare identifier contains no dot. -/
theorem no_dot_of_isPyIdent {s : String} (h : isPyIdent s = true) :
    '.' ∉ s.toList := by
  have h1 : isPyIdentChars s.toList = true := by
    simp [isPyIdent, Bool.and_eq_true] at h
    exact h.1
  intro hmem
  cases hcs : s.toList with
  | nil => rw [hcs] at hmem; exact absurd hmem (List.not_mem_nil _)
  | cons c cs =>
    rw [hcs] at h1 hmem
    simp only [isPyIdentChars, Bool.and_eq_true] at h1
    rcases List.mem_cons.mp hmem with hc | hc
    · subst hc
      exact absurd h1.1 (by decide)
    · exact absurd ((List.all_eq_true.mp h1.2) _ hc) (by decide)

/-- Splitting a bare identifier yields an empty module path and the string
itself as the symbol name. -/
theorem split_module_name_of_ident {s : String} (h : isPyIdent s = true) :
    split_module_name s = ("", s) := by
  have hn : splitLastDot s.toList = none :=
    splitLastDot_eq_none (no_dot_of_isPyIdent h)
  simp only [String.toList] at hn
  simp only [split_module_name, String.toList, hn]

/-- With a non-empty module path, resolution goes through the dynamic loader
applied to exactly the split pair. -/
theorem resolveFn_dyn (ns : String → Option Fn)
    (dyn : String → String → Except Err Fn) (s : String)
    (h : modulePath s ≠ "") :
    resolveFn ns dyn s = dyn (modulePath s) (className s) := by
  simp [resolveFn, h]

/-- With an empty module path, resolution evaluates the namespace attribute. -/
theorem resolveFn_ns (ns : String → Option Fn)
    (dyn : String → String → Except Err Fn) (s : String)
    (h : modulePath s = "") :
    resolveFn ns dyn s = evalNsAttr ns s := by
  simp [resolveFn, h]

/-- C1: for every string trainer identifier, `get_trainer` resolves the string
(against the `training` namespace, or via dynamic import when a module path is
present — both cases covered by `resolveFn`) and returns the result of
*invoking* the resolved function with the configuration mapping expanded as
keyword arguments, not the resolved function itself. -/
theorem get_trainer_string_invokes (env : Env) (s : String) (cfg : Config)
    (f : Fn) (h : resolveFn env.training env.dynamic_import s = .ok f) :
    get_trainer env (.str s) (some cfg) = callFn env f [] cfg := by
  simp [get_trainer, h]

/-- Witness for C1 at the sample environment: the string "tr" resolves to
primitive 2 and `get_trainer` returns that primitive's invocation result. -/
theorem get_trainer_string_invokes_witness :
    get_trainer sampleEnv (.str "tr") (some [("lr", .int 1)]) =
      callFn sampleEnv (.prim 2) [] [("lr", .int 1)] :=
  get_trainer_string_invokes sampleEnv "tr" [("lr", .int 1)] (.prim 2) rfl

/-- C2: for a callable trainer identifier with a configuration mapping,
`get_trainer` performs no invocation now (the returned trace is empty and the
result is the `partial` wrapper), and invoking the returned callable with zero
additional arguments behaves identically to invoking the original callable
with the configuration expanded as keyword arguments. -/
theorem get_trainer_callable_partial_application (env : Env) (f : Fn)
    (cfg : Config) :
    get_trainer env (.fn f) (some cfg) = (.ok (.fn (.partApp f cfg)), []) ∧
    callFn env (.partApp f cfg) [] [] = callFn env f [] cfg := by
  exact ⟨rfl, by simp [callFn, dictUpdate_nil]⟩

/-- C8: for a callable trainer identifier with no configuration mapping,
`get_trainer` falls through both branches and returns Python `None` — in
particular not the original callable unchanged. -/
theorem get_trainer_callable_noconfig (env : Env) (f : Fn) :
    get_trainer env (.fn f) none = (.ok .pyNone, []) ∧
    (get_trainer env (.fn f) none).1 ≠ .ok (.fn f) := by
  refine ⟨rfl, ?_⟩
  simp [get_trainer]

/-- C9: for a string trainer identifier that resolves successfully but with no
configuration mapping supplied, `get_trainer` raises a `TypeError` (expanding
`**None`) instead of returning the resolved callable. -/
theorem get_trainer_string_noconfig_fails (env : Env) (s : String) (f : Fn)
    (h : resolveFn env.training env.dynamic_import s = .ok f) :
    get_trainer env (.str s) none = (.error .typeError, []) := by
  simp [get_trainer, h]

/-- Witness for C9 at the sample environment: "tr" resolves, yet the call
without a configuration fails with a `TypeError`. -/
theorem get_trainer_string_noconfig_fails_witness :
    get_trainer sampleEnv (.str "tr") none = (.error .typeError, []) :=
  get_trainer_string_noconfig_fails sampleEnv "tr" (.prim 2) rfl

/-- C3: for a string identifier whose module-path portion is non-empty, the
resolution shared by `get_data`, `get_model` and `get_trainer` calls the
dynamic loader with exactly the split (module-path, symbol-name) pair; for a
well-formed identifier with an empty module-path, the symbol name is the whole
string and it is looked up in the fixed namespace of the resolution kind, each
of the three operations failing with an `AttributeError` when it is absent
there. -/
theorem resolution_dichotomy (env : Env) (s : String) (cfg : Config)
    (hvalid : modulePath s = "" → isPyIdent s = true) :
    (modulePath s ≠ "" →
      ∀ ns, resolveFn ns env.dynamic_import s =
        env.dynamic_import (modulePath s) (className s)) ∧
    (modulePath s = "" →
      className s = s ∧
      (∀ ns f, ns s = some f → resolveFn ns env.dynamic_import s = .ok f) ∧
      (env.datasets s = none →
        get_data env (.str s) cfg = (.error (.attributeError s), [])) ∧
      (env.models s = none → ∀ dl seed sd st,
        get_model env (.str s) cfg dl seed sd st =
          (.error (.attributeError s), [])) ∧
      (env.training s = none → ∀ tc,
        get_trainer env (.str s) tc = (.error (.attributeError s), []))) := by
  constructor
  · intro hmp ns
    exact resolveFn_dyn ns env.dynamic_import s hmp
  · intro hmp
    have hid : isPyIdent s = true := hvalid hmp
    have hcn : className s = s := by
      simp [className, split_module_name_of_ident hid]
    have hres : ∀ ns : String → Option Fn,
        resolveFn ns env.dynamic_import s = evalNsAttr ns s :=
      fun ns => resolveFn_ns ns env.dynamic_import s hmp
    refine ⟨hcn, ?_, ?_, ?_, ?_⟩
    · intro ns f hf
      rw [hres ns]
      simp [evalNsAttr, hid, hf]
    · intro habs
      simp [get_data, resolveIdent, hres env.datasets, evalNsAttr, hid, habs]
    · intro habs dl seed sd st
      simp [get_model, resolveIdent, hres env.models, evalNsAttr, hid, habs]
    · intro habs tc
      simp [get_trainer, hres env.training, evalNsAttr, hid, habs]

/-- Witness for C3 at the sample environment, exercising both sides of the
dichotomy: the dotted path "baz.make_model" is resolved by handing exactly
("baz", "make_model") to the dynamic loader, and the absent bare name "nope"
makes `get_data` fail with an `AttributeError`. -/
theorem resolution_dichotomy_witness :
    resolveFn sampleEnv.datasets sampleEnv.dynamic_import "baz.make_model" =
      sampleEnv.dynamic_import "baz" "make_model" ∧
    get_data sampleEnv (.str "nope") [] = (.error (.attributeError "nope"), []) := by
  constructor
  · have h := (resolution_dichotomy sampleEnv "baz.make_model" []
      (by intro h; exact absurd h (by decide))).1 (by decide) sampleEnv.datasets
    simpa using h
  · exact ((resolution_dichotomy sampleEnv "nope" []
      (fun _ => by decide)).2 (by decide)).2.2.1 rfl

/-- C4: any invocation of `get_model` whose identifier resolves calls the
resolved model builder with the dataloader as the *only* positional argument
and with the seed plus the configuration mapping as the keyword arguments (so
the dataloader is never among the keyword-expanded configuration entries): the
recorded trace of `get_model` is exactly the trace of that one call, and when
no state_dict is supplied its value is the call's value. -/
theorem get_model_calling_convention (env : Env) (mfn : Ident) (cfg : Config)
    (dl seed : Val) (sd : Option Config) (st : Bool) (f : Fn)
    (hres : resolveIdent env.models env.dynamic_import mfn = .ok f)
    (hseed : cfg.lookup "seed" = none) :
    (get_model env mfn cfg dl seed sd st).2 =
      (callFn env f [dl] (("seed", seed) :: cfg)).2 ∧
    (get_model env mfn cfg dl seed none st).1 =
      (callFn env f [dl] (("seed", seed) :: cfg)).1 := by
  rcases hc : callFn env f [dl] (("seed", seed) :: cfg) with ⟨r, t⟩
  simp only [get_model, hres, hseed, Option.isSome_none, Bool.false_eq_true,
    if_false, hc]
  cases r with
  | error e => simp
  | ok net =>
    cases sd with
    | none => simp
    | some sdv =>
      cases net <;> simp
      cases load_state_dict _ sdv st <;> simp

/-- Witness for C4 at the sample environment: "mk" resolves to primitive 1,
which is invoked with the dataloader first and `seed` plus the configuration
as keywords. -/
theorem get_model_calling_convention_witness :
    (get_model sampleEnv (.str "mk") [("hidden", .int 64)] (.obj 7) .pyNone
        none true).2 =
      (callFn sampleEnv (.prim 1) [.obj 7]
        [("seed", .pyNone), ("hidden", .int 64)]).2 ∧
    (get_model sampleEnv (.str "mk") [("hidden", .int 64)] (.obj 7) .pyNone
        none true).1 =
      (callFn sampleEnv (.prim 1) [.obj 7]
        [("seed", .pyNone), ("hidden", .int 64)]).1 :=
  get_model_calling_convention sampleEnv (.str "mk") [("hidden", .int 64)]
    (.obj 7) .pyNone none true (.prim 1) rfl rfl

/-- C5: when the model builder returns a module and a state_dict with a
parameter-name mismatch is supplied, `get_model` fails with a load error under
`strict = true` and succeeds (tolerating missing and unexpected names) under
`strict = false`; when no state_dict is supplied, the result is exactly the
builder call's result — no loading step occurs. -/
theorem get_model_state_dict_loading (env : Env) (mfn : Ident) (cfg : Config)
    (dl seed : Val) (f : Fn) (ps sd : Config) (t : Trace)
    (hres : resolveIdent env.models env.dynamic_import mfn = .ok f)
    (hseed : cfg.lookup "seed" = none)
    (hnet : callFn env f [dl] (("seed", seed) :: cfg) = (.ok (.module ps), t))
    (hmis : sameKeys ps sd = false) :
    (get_model env mfn cfg dl seed (some sd) true).1 = .error .loadError ∧
    (get_model env mfn cfg dl seed (some sd) false).1 =
      .ok (.module (ps.map fun kv => (kv.1, (sd.lookup kv.1).getD kv.2))) ∧
    (∀ st, get_model env mfn cfg dl seed none st =
      callFn env f [dl] (("seed", seed) :: cfg)) := by
  refine ⟨?_, ?_, ?_⟩ <;>
    simp [get_model, hres, hseed, hnet, load_state_dict, hmis]

/-- Witness for C5 at the sample environment: primitive 3 builds a module with
parameter "w"; loading a state_dict with the mismatched name "v" fails when
strict and succeeds when non-strict. -/
theorem get_model_state_dict_loading_witness :
    (get_model sampleEnv (.fn (.prim 3)) [] (.obj 7) .pyNone
        (some [("v", .int 1)]) true).1 = .error .loadError ∧
    (get_model sampleEnv (.fn (.prim 3)) [] (.obj 7) .pyNone
        (some [("v", .int 1)]) false).1 = .ok (.module [("w", .int 0)]) :=
  ⟨(get_model_state_dict_loading sampleEnv (.fn (.prim 3)) [] (.obj 7) .pyNone
      (.prim 3) [("w", .int 0)] [("v", .int 1)]
      [(3, [.obj 7], [("seed", .pyNone)])] rfl rfl rfl rfl).1,
   (get_model_state_dict_loading sampleEnv (.fn (.prim 3)) [] (.obj 7) .pyNone
      (.prim 3) [("w", .int 0)] [("v", .int 1)]
      [(3, [.obj 7], [("seed", .pyNone)])] rfl rfl rfl rfl).2.1⟩

/-- C6: `get_all_parts` on dataset_fn "foo.bar.make_loaders" with config
`{"batch_size": 32}`, model_fn "baz.make_model" with config `{"hidden": 64}`,
dl_key "train" and no trainer identifier: the loader obtained by dynamically
importing ("foo.bar", "make_loaders") is called as
`make_loaders(batch_size=32)`, the "train" entry of the returned dictionary is
fed to `make_model(that_entry, seed=None, hidden=64)`, and the pair
(loaders, model) is returned — the trace records exactly those two calls. -/
theorem get_all_parts_end_to_end (env : Env) (i j : Nat) (d : Config)
    (dl m : Val)
    (hdynd : env.dynamic_import "foo.bar" "make_loaders" = .ok (.prim i))
    (hdynm : env.dynamic_import "baz" "make_model" = .ok (.prim j))
    (hload : env.prims i [] [("batch_size", .int 32)] = .ok (.dict d))
    (htrain : d.lookup "train" = some dl)
    (hmodel : env.prims j [dl] [("seed", .pyNone), ("hidden", .int 64)] = .ok m) :
    get_all_parts env (.str "foo.bar.make_loaders") [("batch_size", .int 32)]
      (.str "baz.make_model") [("hidden", .int 64)] .pyNone "train" none true
      none none =
      (.ok (.tup [.dict d, m]),
       [(i, [], [("batch_size", .int 32)]),
        (j, [dl], [("seed", .pyNone), ("hidden", .int 64)])]) := by
  have hrd : resolveFn env.datasets env.dynamic_import "foo.bar.make_loaders" =
      .ok (.prim i) := by
    rw [resolveFn_dyn env.datasets env.dynamic_import "foo.bar.make_loaders"
      (by decide)]
    have h1 : modulePath "foo.bar.make_loaders" = "foo.bar" := by decide
    have h2 : className "foo.bar.make_loaders" = "make_loaders" := by decide
    rw [h1, h2, hdynd]
  have hrm : resolveFn env.models env.dynamic_import "baz.make_model" =
      .ok (.prim j) := by
    rw [resolveFn_dyn env.models env.dynamic_import "baz.make_model"
      (by decide)]
    have h1 : modulePath "baz.make_model" = "baz" := by decide
    have h2 : className "baz.make_model" = "make_model" := by decide
    rw [h1, h2, hdynm]
  simp [get_all_parts, get_data, get_model, resolveIdent, hrd, hrm, callFn,
    hload, subscript, htrain, hmodel]

/-- Witness for C6 at the sample environment, where the dynamic loader maps
("foo.bar", "make_loaders") to primitive 10 and ("baz", "make_model") to
primitive 11. -/
theorem get_all_parts_end_to_end_witness :
    get_all_parts sampleEnv (.str "foo.bar.make_loaders")
      [("batch_size", .int 32)] (.str "baz.make_model") [("hidden", .int 64)]
      .pyNone "train" none true none none =
      (.ok (.tup [.dict [("train", .obj 7), ("validation", .obj 8)], .obj 9]),
       [(10, [], [("batch_size", .int 32)]),
        (11, [.obj 7], [("seed", .pyNone), ("hidden", .int 64)])]) :=
  get_all_parts_end_to_end sampleEnv 10 11
    [("train", .obj 7), ("validation", .obj 8)] (.obj 7) (.obj 9)
    rfl rfl rfl rfl rfl

/-- C7: `get_all_parts` returns the triple (dataloaders, model, trainer) when
a trainer identifier is supplied and the pair (dataloaders, model) otherwise,
and any error raised by the data step, the dataloader subscript, the model
step or the trainer step aborts the aggregate immediately, propagating that
error unmodified. -/
theorem get_all_parts_shape_and_errors (env : Env) (dfn : Ident)
    (dcfg : Config) (mfn : Ident) (mcfg : Config) (seed : Val) (key : String)
    (sd : Option Config) (st : Bool) (tcfg : Option Config) :
    (∀ e t1, get_data env dfn dcfg = (.error e, t1) → ∀ tfn,
      get_all_parts env dfn dcfg mfn mcfg seed key sd st tfn tcfg =
        (.error e, t1)) ∧
    (∀ dls t1, get_data env dfn dcfg = (.ok dls, t1) →
      (∀ e, subscript dls key = .error e → ∀ tfn,
        get_all_parts env dfn dcfg mfn mcfg seed key sd st tfn tcfg =
          (.error e, t1)) ∧
      (∀ dl, subscript dls key = .ok dl →
        (∀ e t2, get_model env mfn mcfg dl seed sd st = (.error e, t2) →
          ∀ tfn,
          get_all_parts env dfn dcfg mfn mcfg seed key sd st tfn tcfg =
            (.error e, t1 ++ t2)) ∧
        (∀ m t2, get_model env mfn mcfg dl seed sd st = (.ok m, t2) →
          (get_all_parts env dfn dcfg mfn mcfg seed key sd st none tcfg =
            (.ok (.tup [dls, m]), t1 ++ t2)) ∧
          (∀ tfn e t3, get_trainer env tfn tcfg = (.error e, t3) →
            get_all_parts env dfn dcfg mfn mcfg seed key sd st (some tfn)
              tcfg = (.error e, t1 ++ t2 ++ t3)) ∧
          (∀ tfn tr t3, get_trainer env tfn tcfg = (.ok tr, t3) →
            get_all_parts env dfn dcfg mfn mcfg seed key sd st (some tfn)
              tcfg = (.ok (.tup [dls, m, tr]), t1 ++ t2 ++ t3))))) := by
  refine ⟨?_, ?_⟩
  · intro e t1 hd tfn
    simp [get_all_parts, hd]
  · intro dls t1 hd
    refine ⟨?_, ?_⟩
    · intro e hsub tfn
      simp [get_all_parts, hd, hsub]
    · intro dl hsub
      refine ⟨?_, ?_⟩
      · intro e t2 hm tfn
        simp [get_all_parts, hd, hsub, hm]
      · intro m t2 hm
        refine ⟨?_, ?_, ?_⟩
        · simp [get_all_parts, hd, hsub, hm]
        · intro tfn e t3 ht
          simp [get_all_parts, hd, hsub, hm, ht]
        · intro tfn tr t3 ht
          simp [get_all_parts, hd, hsub, hm, ht]

/-- Witness for C7 at the sample environment: an unresolvable dataset name
propagates its `AttributeError` through the aggregate; with callable builders
the aggregate returns the pair without a trainer identifier and the triple
with one. -/
theorem get_all_parts_shape_and_errors_witness :
    get_all_parts sampleEnv (.str "nope") [] (.fn (.prim 11)) [] .pyNone
      "train" none true none none = (.error (.attributeError "nope"), []) ∧
    get_all_parts sampleEnv (.fn (.prim 10)) [] (.fn (.prim 11)) [] .pyNone
      "train" none true none none =
      (.ok (.tup [.dict [("train", .obj 7), ("validation", .obj 8)], .obj 9]),
       [(10, [], []), (11, [.obj 7], [("seed", .pyNone)])]) ∧
    get_all_parts sampleEnv (.fn (.prim 10)) [] (.fn (.prim 11)) [] .pyNone
      "train" none true (some (.fn (.prim 2))) (some []) =
      (.ok (.tup [.dict [("train", .obj 7), ("validation", .obj 8)], .obj 9,
         .fn (.partApp (.prim 2) [])]),
       [(10, [], []), (11, [.obj 7], [("seed", .pyNone)])]) :=
  ⟨(get_all_parts_shape_and_errors sampleEnv (.str "nope") [] (.fn (.prim 11))
      [] .pyNone "train" none true none).1 (.attributeError "nope") [] rfl
      none,
   (((((get_all_parts_shape_and_errors sampleEnv (.fn (.prim 10)) []
      (.fn (.prim 11)) [] .pyNone "train" none true none).2
      (.dict [("train", .obj 7), ("validation", .obj 8)]) [(10, [], [])]
      rfl).2 (.obj 7) rfl).2 (.obj 9) [(11, [.obj 7], [("seed", .pyNone)])]
      rfl).1),
   (((((get_all_parts_shape_and_errors sampleEnv (.fn (.prim 10)) []
      (.fn (.prim 11)) [] .pyNone "train" none true (some [])).2
      (.dict [("train", .obj 7), ("validation", .obj 8)]) [(10, [], [])]
      rfl).2 (.obj 7) rfl).2 (.obj 9) [(11, [.obj 7], [("seed", .pyNone)])]
      rfl).2.2 (.fn (.prim 2)) (.fn (.partApp (.prim 2) [])) [] rfl)⟩

end NNFabrik
